import Mathlib

/-!
Verification development for go-zerotier: a shallow embedding of
`zerotier/endpoint.go` and `zerotier/controller.go`.

* Go strings are Lean strings; the parsers of the standard library work on the
  list of characters of a string.
* Go `error` values are modelled by their message text.
* Everything outside the process (the `zerotier-cli` command, the daemon
  executable, the cancellation channel, the HTTP transport, the JSON decoder)
  is an explicit `World` / `HTTPClient` argument, and every interaction is
  recorded in the `State` that the functions thread through.
* The functions of the Go standard library that decide what the program
  returns (`fmt.Errorf` called with a format only, `net.ParseCIDR`,
  `net.IP.To4`) are modelled after the Go sources.
-/

namespace Zerotier

/-- Go error values, modelled by the text that their Error method returns. -/
abbrev GoError := String

/-! ## Package fmt: formatting with an empty operand list -/

namespace fmt

/-- The flag characters that doPrintf consumes right after a percent sign. -/
def isFlag (c : Char) : Bool :=
  c = '#' || c = '0' || c = '+' || c = '-' || c = ' '

/-- The flag loop of doPrintf: with no operand the fast path for simple verbs is
never taken, so the loop stops at the first character that is not a flag. -/
def skipFlags : List Char → List Char
  | [] => []
  | c :: cs => if isFlag c then skipFlags cs else c :: cs

/-- ASCII decimal digit test, as written in the Go parsers. -/
def isDigit (c : Char) : Bool := decide ('0' ≤ c) && decide (c ≤ '9')

/-- Loop of fmt.parsenum over the slice of the format it is given: the number
read, whether a digit was seen, and what is left of the slice. A number above
1e6 stops the scan at the end of the slice. -/
def parsenumLoop : List Char → Nat → Bool → Nat × Bool × List Char
  | [], num, isnum => (num, isnum, [])
  | c :: cs, num, isnum =>
    if isDigit c then
      if num > 1000000 then (0, false, [])
      else parsenumLoop cs (num * 10 + (c.toNat - 48)) true
    else (num, isnum, c :: cs)

/-- Function fmt.parsenum on the slice `format[start:end]`. -/
def parsenum (s : List Char) : Nat × Bool × List Char :=
  parsenumLoop s 0 false

/-- Length in bytes of the UTF-8 encoding, which is what Go's len measures. -/
def byteLen (s : List Char) : Nat := (s.map Char.utf8Size).sum

/-- Function fmt.parseArgNumber on a format that starts with an opening bracket:
the index, the rest of the format after the bracket expression, and ok. -/
def parseArgNumber (s : List Char) : Int × List Char × Bool :=
  if byteLen s < 3 then (0, s.drop 1, false)
  else
    let body := s.drop 1
    if body.contains ']' then
      let inner := body.takeWhile (fun c => c != ']')
      let after := (body.dropWhile (fun c => c != ']')).drop 1
      let r := parsenum inner
      if !r.2.1 || !r.2.2.isEmpty then (0, after, false)
      else ((r.1 : Int) - 1, after, true)
    else (0, s.drop 1, false)

/-- Method pp.argNumber with numArgs = 0: the rest of the format, found, and
whether goodArgNum was cleared. No index is ever below numArgs. -/
def argNumber (s : List Char) : List Char × Bool × Bool :=
  match s with
  | '[' :: _ =>
    let r := parseArgNumber s
    (r.2.1, r.2.2, true)
  | _ => (s, false, false)

/-- One verb of doPrintf with an empty operand list; the argument is the format
after the percent sign, the result is the text written and the format left. -/
def doVerb (s0 : List Char) : List Char × List Char :=
  let s1 := skipFlags s0
  -- explicit argument index
  let a1 := argNumber s1
  let s2 := a1.1
  let afterIndex1 := a1.2.1
  let bad1 := a1.2.2
  -- width
  let w : List Char × List Char × Bool × Bool :=
    match s2 with
    | '*' :: t => ("%!(BADWIDTH)".toList, t, false, bad1)
    | _ =>
      let r := parsenum s2
      ([], r.2.2, afterIndex1, bad1 || (afterIndex1 && r.2.1))
  let out3 := w.1
  let s3 := w.2.1
  let afterIndex3 := w.2.2.1
  let bad3 := w.2.2.2
  -- precision: only when a character follows the dot; a dot that ends the
  -- format is left to be the verb
  let p : List Char × List Char × Bool × Bool :=
    match s3 with
    | '.' :: c :: t1 =>
      let a2 := argNumber (c :: t1)
      let bad := bad3 || afterIndex3 || a2.2.2
      match a2.1 with
      | '*' :: t2 => (out3 ++ "%!(BADPREC)".toList, t2, false, bad)
      | _ =>
        let r := parsenum a2.1
        (out3, r.2.2, a2.2.1, bad)
    | _ => (out3, s3, afterIndex3, bad3)
  let out4 := p.1
  let s4 := p.2.1
  let afterIndex4 := p.2.2.1
  let bad4 := p.2.2.2
  let a3 := if afterIndex4 then (s4, true, false) else argNumber s4
  let s5 := a3.1
  let bad5 := bad4 || a3.2.2
  match s5 with
  | [] => (out4 ++ "%!(NOVERB)".toList, [])
  | verb :: rest =>
    if verb = '%' then (out4 ++ ['%'], rest)
    else if bad5 then (out4 ++ "%!".toList ++ [verb] ++ "(BADINDEX)".toList, rest)
    else (out4 ++ "%!".toList ++ [verb] ++ "(MISSING)".toList, rest)

/-- Method pp.doPrintf with an empty operand list. Every round consumes at least
the percent sign, so a fuel of one more than the length of the format is never
used up. -/
def doPrintf : Nat → List Char → List Char
  | 0, _ => []
  | fuel + 1, s =>
    let lit := s.takeWhile (fun c => c != '%')
    match s.dropWhile (fun c => c != '%') with
    | [] => lit
    | _ :: t =>
      let r := doVerb t
      lit ++ r.1 ++ doPrintf fuel r.2

/-- Call fmt.Sprintf(format) without operands. -/
def Sprintf (format : String) : String :=
  String.mk (doPrintf (format.length + 1) format.toList)

/-- Call fmt.Errorf(format) without operands: the error whose text is
Sprintf(format). -/
def Errorf (format : String) : GoError := Sprintf format

end fmt

/-! ## Package net: ParseCIDR and IP.To4 -/

namespace net

/-- Type net.IP: a slice of bytes, of length 4 or 16. -/
abbrev IP := List Nat

/-- Function net.isZeros. -/
def isZeros (p : List Nat) : Bool := p.all (fun b => b == 0)

/-- Method IP.To4: the 4-byte form of an IPv4 address, none for Go's nil. -/
def To4 (ip : IP) : Option IP :=
  if ip.length = 4 then some ip
  else if ip.length = 16 && isZeros (ip.take 10) && ip.get? 10 == some 255
      && ip.get? 11 == some 255 then
    some (ip.drop 12)
  else none

/-- Loop of netip.parseIPv4Fields: `prev` is the character before the current
one (none at the start), `fields` the octets stored so far. -/
def parseIPv4Loop : List Char → Option Char → Nat → Nat → List Nat → Option (List Nat)
  | [], _, val, _, fields =>
    if fields.length < 3 then none else some (fields ++ [val])
  | c :: rest, prev, val, digLen, fields =>
    if fmt.isDigit c then
      if digLen = 1 && val = 0 then none
      else
        let val1 := val * 10 + (c.toNat - 48)
        if val1 > 255 then none
        else parseIPv4Loop rest (some c) val1 (digLen + 1) fields
    else if c = '.' then
      if prev.isNone || rest.isEmpty || prev == some '.' then none
      else if fields.length = 3 then none
      else parseIPv4Loop rest (some c) 0 0 (fields ++ [val])
    else none

/-- Function netip.parseIPv4Fields: the four octets of a dotted-decimal
address. -/
def parseIPv4Fields (s : List Char) : Option (List Nat) :=
  parseIPv4Loop s none 0 0 []

/-- Value of a hexadecimal digit. -/
def hexVal (c : Char) : Option Nat :=
  if decide ('0' ≤ c) && decide (c ≤ '9') then some (c.toNat - 48)
  else if decide ('a' ≤ c) && decide (c ≤ 'f') then some (c.toNat - 97 + 10)
  else if decide ('A' ≤ c) && decide (c ≤ 'F') then some (c.toNat - 65 + 10)
  else none

/-- Inner loop of netip.parseIPv6 that reads one group of hex digits: the number
of digits, the value, and the rest; none when the group is too long. -/
def parseHexGroup : List Char → Nat → Nat → Option (Nat × Nat × List Char)
  | [], off, acc => some (off, acc, [])
  | c :: cs, off, acc =>
    match hexVal c with
    | none => some (off, acc, c :: cs)
    | some v =>
      let acc1 := (acc * 16 + v) % 4294967296
      if off > 3 then none
      else if acc1 > 65535 then none
      else parseHexGroup cs (off + 1) acc1

/-- Main loop of netip.parseIPv6: `ip` holds the bytes written so far (its
length is the index i of the source), `ellipsis` the position of the double
colon. Each round that continues writes two bytes, so nine rounds are enough. -/
def parseIPv6Loop : Nat → List Char → List Nat → Option Nat →
    Option (List Char × List Nat × Option Nat)
  | 0, s, ip, ellipsis => some (s, ip, ellipsis)
  | fuel + 1, s, ip, ellipsis =>
    if ip.length < 16 then
      match parseHexGroup s 0 0 with
      | none => none
      | some (off, acc, rest) =>
        if off = 0 then none
        else if rest.head? == some '.' then
          if ellipsis.isNone && ip.length != 12 then none
          else if ip.length + 4 > 16 then none
          else
            match parseIPv4Fields s with
            | none => none
            | some f => some ([], ip ++ f, ellipsis)
        else
          let ip1 := ip ++ [acc / 256 % 256, acc % 256]
          match rest with
          | [] => some ([], ip1, ellipsis)
          | c :: rest1 =>
            if c != ':' then none
            else
              match rest1 with
              | [] => none
              | c2 :: rest2 =>
                if c2 = ':' then
                  if ellipsis.isSome then none
                  else
                    match rest2 with
                    | [] => some ([], ip1, some ip1.length)
                    | _ :: _ => parseIPv6Loop fuel rest2 ip1 (some ip1.length)
                else parseIPv6Loop fuel (c2 :: rest2) ip1 ellipsis
    else some (s, ip, ellipsis)

/-- Function netip.parseIPv6: the sixteen bytes and the zone. -/
def parseIPv6 (s0 : List Char) : Option (List Nat × List Char) :=
  let hasZone := s0.contains '%'
  let s := s0.takeWhile (fun c => c != '%')
  let zone := (s0.dropWhile (fun c => c != '%')).drop 1
  if hasZone && zone.isEmpty then none
  else
    let start : List Char × Option Nat :=
      match s with
      | ':' :: ':' :: t => (t, some 0)
      | _ => (s, none)
    if start.2.isSome && start.1.isEmpty then some (List.replicate 16 0, zone)
    else
      match parseIPv6Loop 9 start.1 [] start.2 with
      | none => none
      | some (rest, ip, ellipsis) =>
        if !rest.isEmpty then none
        else if ip.length < 16 then
          match ellipsis with
          | none => none
          | some e =>
            some (ip.take e ++ List.replicate (16 - ip.length) 0 ++ ip.drop e, zone)
        else if ellipsis.isSome then none
        else some (ip, zone)

/-- Type netip.Addr: an IPv4 address (four octets) or an IPv6 address (sixteen
bytes and a zone). -/
inductive Addr where
  | v4 (fields : List Nat)
  | v6 (bytes : List Nat) (zone : List Char)
  deriving DecidableEq, Repr

/-- Method Addr.Zone. -/
def Addr.Zone : Addr → List Char
  | .v4 _ => []
  | .v6 _ z => z

/-- Method Addr.BitLen. -/
def Addr.BitLen : Addr → Nat
  | .v4 _ => 32
  | .v6 _ _ => 128

/-- Method Addr.As16: an IPv4 address in its IPv4-mapped IPv6 form. -/
def Addr.As16 : Addr → List Nat
  | .v4 f => [0, 0, 0, 0, 0, 0, 0, 0, 0, 0, 255, 255] ++ f
  | .v6 b _ => b

/-- Scan of netip.ParseAddr for the first dot, colon or percent sign. -/
def firstSep : List Char → Option Char
  | [] => none
  | c :: cs => if c = '.' || c = ':' || c = '%' then some c else firstSep cs

/-- Function netip.ParseAddr. -/
def ParseAddr (s : List Char) : Option Addr :=
  match firstSep s with
  | none => none
  | some c =>
    if c = '.' then (parseIPv4Fields s).map Addr.v4
    else if c = ':' then (parseIPv6 s).map (fun r => Addr.v6 r.1 r.2)
    else none

/-- Loop of net.dtoi: the number, the rest of the string, and false on
overflow. -/
def dtoiLoop : List Char → Nat → Nat × List Char × Bool
  | [], n => (n, [], true)
  | c :: cs, n =>
    if fmt.isDigit c then
      let n1 := n * 10 + (c.toNat - 48)
      if n1 ≥ 16777215 then (16777215, c :: cs, false) else dtoiLoop cs n1
    else (n, c :: cs, true)

/-- Function net.dtoi: decimal to integer; ok is false when no digit is read. -/
def dtoi (s : List Char) : Nat × List Char × Bool :=
  let r := dtoiLoop s 0
  if r.2.2 && r.2.1.length == s.length then (0, s, false) else r

/-- Function net.ParseCIDR, its IP result only (the network is discarded by the
caller). -/
def ParseCIDR (s : String) : Except GoError IP :=
  let cs := s.toList
  if cs.contains '/' then
    let addr := cs.takeWhile (fun c => c != '/')
    let mask := (cs.dropWhile (fun c => c != '/')).drop 1
    match ParseAddr addr with
    | none => .error ("invalid CIDR address: " ++ s)
    | some ipAddr =>
      if !ipAddr.Zone.isEmpty then .error ("invalid CIDR address: " ++ s)
      else
        let r := dtoi mask
        if !r.2.2 || !r.2.1.isEmpty || r.1 > ipAddr.BitLen then
          .error ("invalid CIDR address: " ++ s)
        else .ok ipAddr.As16
  else .error ("invalid CIDR address: " ++ s)

end net

/-! ## The world outside the process -/

/-- One virtual network as reported by the daemon (struct Network). -/
structure Network where
  Id : String
  Mac : String
  Name : String
  Status : String
  NetType : String
  MTU : Int
  DCHP : Bool
  Bridge : Bool
  BroadcastEnabled : Bool
  Addresses : List String
  PortDeviceName : String
  deriving DecidableEq, Repr

/-- The daemon's identity and status (struct Endpoint). -/
structure Endpoint where
  DeviceAddress : String
  Online : Bool
  TCPFallback : Bool
  deriving DecidableEq, Repr

/-- What running an external command to completion gives: the exit status (none
when the process could not be run at all) and the two captured streams. -/
structure CmdResult where
  exitCode : Option Nat
  stdout : String
  stderr : String
  deriving DecidableEq, Repr

/-- Method cmd.Run returns nil exactly when the command ran and exited with
status zero. -/
def CmdResult.runErr (r : CmdResult) : Bool := r.exitCode != some 0

/-- The interactions of the program with its environment, in program order. -/
inductive Event where
  | run (name : String) (args : List String)
  | start (name : String)
  | sleep (seconds : Nat)
  | selectExit
  | selectTimer (seconds : Nat)
  | log (msg : String)
  deriving DecidableEq, Repr

/-- The environment: the outcome of the n-th process launch, of the n-th select
on the exit channel (true when the channel delivers before the timer), and the
JSON decoder for the listnetworks output. -/
structure World where
  run : Nat → String → List String → CmdResult
  start : Nat → String → Option GoError
  exitFirst : Nat → Bool
  unmarshalNetworks : String → Except GoError (List Network)

/-- The history of a run: processes launched, selects executed, and the trace of
all events. -/
structure State where
  execs : Nat
  selects : Nat
  trace : List Event
  deriving DecidableEq, Repr

/-- The state before anything has happened. -/
def State.init : State := ⟨0, 0, []⟩

/-! ## endpoint.go -/

/-- Function ZTClientJson: run zerotier-cli with -j in front of the arguments;
the captured standard output, or the captured standard error passed to
fmt.Errorf as its format. (The two bufio writers are never flushed, and need
not be: exec copies each stream with io.Copy, which calls ReadFrom of the
bufio.Writer, and that hands an empty writer's input straight to the
bytes.Buffer below it; the buffers hold the complete streams.) -/
def ZTClientJson (w : World) (args : List String) (st : State) :
    (Option String × Option GoError) × State :=
  let args1 := "-j" :: args
  let r := w.run st.execs "zerotier-cli" args1
  let st1 : State := ⟨st.execs + 1, st.selects, st.trace ++ [Event.run "zerotier-cli" args1]⟩
  if r.runErr then ((none, some (fmt.Errorf r.stderr)), st1)
  else ((some r.stdout, none), st1)

/-- Function PingDaemon. -/
def PingDaemon (w : World) (st : State) : Option GoError × State :=
  let r := ZTClientJson w ["status"] st
  (r.1.2, r.2)

/-- Function StartDaemon. -/
def StartDaemon (w : World) (st : State) : Option GoError × State :=
  let p1 := PingDaemon w st
  if p1.1.isSome then
    let st1 := p1.2
    let err := w.start st1.execs "/var/lib/zerotier-one/zerotier-one"
    let st2 : State :=
      ⟨st1.execs + 1, st1.selects, st1.trace ++ [Event.start "/var/lib/zerotier-one/zerotier-one"]⟩
    match err with
    | some e => (some e, st2)
    | none =>
      let st3 : State := ⟨st2.execs, st2.selects, st2.trace ++ [Event.sleep 1]⟩
      let p2 := PingDaemon w st3
      if p2.1.isSome then (some (fmt.Errorf "Cannot connect to local zt daemon"), p2.2)
      else (none, p2.2)
  else (none, p1.2)

/-- Method Endpoint.Join. -/
def Endpoint.Join (_e : Endpoint) (w : World) (networkId : String) (st : State) :
    Option GoError × State :=
  let r := ZTClientJson w ["join", networkId] st
  (r.1.2, r.2)

/-- Method Endpoint.Leave. -/
def Endpoint.Leave (_e : Endpoint) (w : World) (networkId : String) (st : State) :
    Option GoError × State :=
  let r := ZTClientJson w ["leave", networkId] st
  (r.1.2, r.2)

/-- A Go map from string to Network: a list of entries with distinct keys. The
nil map and the empty map are both the empty list (the program only reads). -/
abbrev NetworkMap := List (String × Network)

/-- Assignment m[k] = v. -/
def NetworkMap.set : NetworkMap → String → Network → NetworkMap
  | [], k, v => [(k, v)]
  | (k1, v1) :: rest, k, v =>
    if k1 = k then (k, v) :: rest else (k1, v1) :: NetworkMap.set rest k v

/-- Lookup v, ok := m[k]. -/
def NetworkMap.get? : NetworkMap → String → Option Network
  | [], _ => none
  | (k1, v1) :: rest, k => if k1 = k then some v1 else NetworkMap.get? rest k

/-- The keys of a map. -/
def NetworkMap.keys (m : NetworkMap) : List String := m.map Prod.fst

/-- Method Endpoint.ListNetworks. -/
def Endpoint.ListNetworks (_e : Endpoint) (w : World) (st : State) : NetworkMap × State :=
  let r := ZTClientJson w ["listnetworks"] st
  match r.1.1, r.1.2 with
  | some data, none =>
    match w.unmarshalNetworks data with
    | .error err =>
      let st1 := r.2
      ([], ⟨st1.execs, st1.selects, st1.trace ++
        [Event.log (fmt.Sprintf "Warning: cannot parse getnetworks output: \n"),
         Event.log ("Network data: " ++ data ++ " \n\n Error is: "),
         Event.log (fmt.Sprintf err)]⟩)
    | .ok networkList =>
      (networkList.foldl (fun networkMap nw => networkMap.set nw.Id nw) [], r.2)
  | _, _ => ([], r.2)

/-- Method Endpoint.GetNetwork: none for Go's nil. -/
def Endpoint.GetNetwork (e : Endpoint) (w : World) (id : String) (st : State) :
    Option Network × State :=
  let r := e.ListNetworks w st
  (r.1.get? id, r.2)

/-- Method Endpoint.WaitForIP. The loop of the source has no bound, so the
embedding takes a number of rounds; none means that the rounds ran out while
the loop was still polling. -/
def Endpoint.WaitForIP (e : Endpoint) (w : World) (networkId : String) :
    Nat → State → Option ((Option net.IP × Option GoError) × State)
  | 0, _ => none
  | fuel + 1, st =>
    let g := e.GetNetwork w networkId st
    match g.1 with
    | none => some ((none, some (fmt.Errorf ("no such network: " ++ networkId))), g.2)
    | some nw =>
      match nw.Addresses with
      | a :: _ =>
        match net.ParseCIDR a with
        | .error err => some ((none, some err), g.2)
        | .ok ip =>
          if (net.To4 ip).isSome then some ((some ip, none), g.2)
          else some ((none, some (fmt.Errorf ("Cannot handle ip address as ipv4: " ++ a))), g.2)
      | [] =>
        let st1 := g.2
        if w.exitFirst st1.selects then
          some ((none, some (fmt.Errorf "User cancelled")),
            ⟨st1.execs, st1.selects + 1, st1.trace ++ [Event.selectExit]⟩)
        else
          Endpoint.WaitForIP e w networkId fuel
            ⟨st1.execs, st1.selects + 1, st1.trace ++ [Event.selectTimer 1]⟩

/-! ## controller.go -/

/-- The official controller (struct Controller). -/
structure Controller where
  ZerotierToken : String
  deriving DecidableEq, Repr

/-- Function NewController. -/
def NewController (zerotierToken : String) : Controller := ⟨zerotierToken⟩

/-- Variable controllerEndpoint. -/
def controllerEndpoint : String := "https://my.zerotier.com/api"

/-- Type http.Header: a map from canonical key to values, kept in key order,
which is the order in which fmt prints a map. -/
abbrev Header := List (String × List String)

/-- Go's order on strings: lexicographic, character by character. -/
def strLess : List Char → List Char → Bool
  | [], [] => false
  | [], _ :: _ => true
  | _ :: _, [] => false
  | a :: as, b :: bs =>
    if a.toNat < b.toNat then true
    else if b.toNat < a.toNat then false
    else strLess as bs

/-- Method Header.Set for a key that is already in canonical form. -/
def Header.Set : Header → String → String → Header
  | [], k, v => [(k, [v])]
  | (k1, vs) :: rest, k, v =>
    if k = k1 then (k, [v]) :: rest
    else if strLess k.toList k1.toList then (k, [v]) :: (k1, vs) :: rest
    else (k1, vs) :: Header.Set rest k v

/-- The verb v of fmt on a Header: map[key:[v1 v2] key:[v1]]. -/
def Header.format (h : Header) : String :=
  "map[" ++ " ".intercalate (h.map (fun kv => kv.1 ++ ":[" ++ " ".intercalate kv.2 ++ "]")) ++ "]"

/-- The request handed to the HTTP client. -/
structure Request where
  Method : String
  URL : String
  Header : Header
  Body : String
  deriving DecidableEq, Repr

/-- The fields of http.Response that the program reads. -/
structure Response where
  StatusCode : Int
  Status : String
  deriving DecidableEq, Repr

/-- The HTTP side of the environment: the error of http.NewRequest for a method
and URL (none when the request can be built), and http.DefaultClient.Do. -/
structure HTTPClient where
  NewRequestErr : String → String → Option GoError
  Do : Request → Except GoError Response

/-- Method Controller.AuthorizeMember. -/
def Controller.AuthorizeMember (c : Controller) (h : HTTPClient)
    (networkId memberAddress memberDescription : String) : Option GoError :=
  let loc := controllerEndpoint ++ "/network/" ++ networkId ++ "/member/" ++ memberAddress
  let body := "\x7b\"config\":\x7b\"authorized\": true\x7d, \"annot\": \x7b\"description\": \""
    ++ memberDescription ++ "\"\x7d\x7d"
  match h.NewRequestErr "POST" loc with
  | some err => some ("Failed to create request: " ++ err)
  | none =>
    let header := Header.Set
      (Header.Set [] "Authorization" ("Bearer " ++ c.ZerotierToken))
      "Content-Type" "application/json"
    match h.Do ⟨"POST", loc, header, body⟩ with
    | .error err => some err
    | .ok resp =>
      if resp.StatusCode > 299 then
        some ("Failed to update member details '" ++ header.format ++ "': " ++ resp.Status)
      else none

/-! ## Auxiliary definitions for the statements -/

/-- The event of one listnetworks query. -/
def pollEvent : Event := Event.run "zerotier-cli" ["-j", "listnetworks"]

/-- The event of one status query. -/
def pingEvent : Event := Event.run "zerotier-cli" ["-j", "status"]

/-- The network that GetNetwork finds when the listnetworks query is the n-th
process launch. -/
def Endpoint.poll (e : Endpoint) (w : World) (id : String) (n : Nat) : Option Network :=
  (e.GetNetwork w id ⟨n, 0, []⟩).1

/-- The loop of ListNetworks over the parsed list. -/
def buildMap (networkList : List Network) : NetworkMap :=
  networkList.foldl (fun networkMap nw => networkMap.set nw.Id nw) []

/-- The events of k rounds of WaitForIP that each found an empty address list
and then saw the timer fire. -/
def waitTrace : Nat → List Event
  | 0 => []
  | k + 1 => pollEvent :: Event.selectTimer 1 :: waitTrace k

/-- A network entry as the daemon reports it, with the given assigned
addresses. -/
def sampleNetwork (addrs : List String) : Network :=
  ⟨"8056c2e21c000001", "32:66:d3:4c:2a:0b", "demo", "OK", "PRIVATE", 2800, false, false, true,
    addrs, "zt0"⟩

/-- A world for examples: every command succeeds; the daemon lists one network,
with no address for the first `ready` process launches and with `addrs`
afterwards; the exit channel delivers at the select numbered `cancelAt`. -/
def sampleWorld (ready : Nat) (addrs : List String) (cancelAt : Option Nat) : World where
  run n _ _ := ⟨some 0, if n < ready then "pending" else "assigned", ""⟩
  start _ _ := none
  exitFirst n := cancelAt == some n
  unmarshalNetworks out :=
    if out = "pending" then .ok [sampleNetwork []] else .ok [sampleNetwork addrs]

/-- A world for examples in which the daemon lists exactly the networks `l`. -/
def listWorld (l : List Network) : World where
  run _ _ _ := ⟨some 0, "networks", ""⟩
  start _ _ := none
  exitFirst _ := false
  unmarshalNetworks _ := .ok l

/-- A world for examples: the n-th process launch, a zerotier-cli query, reaches
the daemon when `up n` holds and otherwise exits with status 1 and the given
standard error; starting the daemon executable gives `startErr`. -/
def daemonWorld (up : Nat → Bool) (startErr : Option GoError) (stderr : String) : World where
  run n _ _ := if up n then ⟨some 0, "status", ""⟩ else ⟨some 1, "", stderr⟩
  start _ _ := startErr
  exitFirst _ := false
  unmarshalNetworks _ := .ok []

/-- The request that AuthorizeMember hands to the HTTP client. -/
def Controller.authorizeRequest (c : Controller)
    (networkId memberAddress memberDescription : String) : Request :=
  ⟨"POST", controllerEndpoint ++ "/network/" ++ networkId ++ "/member/" ++ memberAddress,
    Header.Set (Header.Set [] "Authorization" ("Bearer " ++ c.ZerotierToken))
      "Content-Type" "application/json",
    "\x7b\"config\":\x7b\"authorized\": true\x7d, \"annot\": \x7b\"description\": \""
      ++ memberDescription ++ "\"\x7d\x7d"⟩

/-- An HTTP client for examples: every request can be built and is answered with
the given response. -/
def fixedClient (resp : Response) : HTTPClient := ⟨fun _ _ => none, fun _ => .ok resp⟩

/-- The endpoint used in examples. -/
def sampleEndpoint : Endpoint := ⟨"0123456789", true, false⟩

/-! ## Lemmas: fmt -/

theorem fmt.doPrintf_of_no_percent (fuel : Nat) (s : List Char) (h : '%' ∉ s) :
    fmt.doPrintf (fuel + 1) s = s := by
  have h1 : s.dropWhile (fun c => c != '%') = [] := by
    rw [List.dropWhile_eq_nil_iff]
    intro x hx
    have : x ≠ '%' := fun hc => h (hc ▸ hx)
    simpa using this
  have h2 : s.takeWhile (fun c => c != '%') = s := by
    rw [List.takeWhile_eq_self_iff]
    intro x hx
    have : x ≠ '%' := fun hc => h (hc ▸ hx)
    simpa using this
  simp only [fmt.doPrintf, h1, h2]

theorem fmt.Errorf_of_no_percent (s : String) (h : '%' ∉ s.toList) : fmt.Errorf s = s := by
  unfold fmt.Errorf fmt.Sprintf
  rw [fmt.doPrintf_of_no_percent _ _ h]
  cases s
  rfl

/-! ## Lemmas: the map built by ListNetworks -/

theorem NetworkMap.get?_set (m : NetworkMap) (k k1 : String) (v : Network) :
    NetworkMap.get? (NetworkMap.set m k v) k1 = if k = k1 then some v else NetworkMap.get? m k1 := by
  induction m with
  | nil => simp [NetworkMap.set, NetworkMap.get?]
  | cons hd tl ih =>
    obtain ⟨k2, v2⟩ := hd
    by_cases h : k2 = k
    · subst h
      by_cases h1 : k2 = k1 <;> simp [NetworkMap.set, NetworkMap.get?, h1]
    · by_cases h1 : k2 = k1
      · subst h1
        have : ¬ k = k2 := fun hc => h hc.symm
        simp [NetworkMap.set, NetworkMap.get?, h, this]
      · simp [NetworkMap.set, NetworkMap.get?, h, h1, ih]

theorem NetworkMap.mem_keys_set (m : NetworkMap) (k k1 : String) (v : Network) :
    k1 ∈ NetworkMap.keys (NetworkMap.set m k v) ↔ k1 = k ∨ k1 ∈ NetworkMap.keys m := by
  induction m with
  | nil => simp [NetworkMap.set, NetworkMap.keys]
  | cons hd tl ih =>
    obtain ⟨k2, v2⟩ := hd
    by_cases h : k2 = k
    · subst h
      simp [NetworkMap.set, NetworkMap.keys]
    · have ih1 : k1 ∈ List.map Prod.fst (NetworkMap.set tl k v) ↔
          k1 = k ∨ k1 ∈ List.map Prod.fst tl := ih
      simp only [NetworkMap.set, NetworkMap.keys, h, if_false, List.map_cons, List.mem_cons, ih1]
      tauto

theorem NetworkMap.nodup_keys_set (m : NetworkMap) (k : String) (v : Network)
    (h : (NetworkMap.keys m).Nodup) : (NetworkMap.keys (NetworkMap.set m k v)).Nodup := by
  induction m with
  | nil => simp [NetworkMap.set, NetworkMap.keys]
  | cons hd tl ih =>
    obtain ⟨k2, v2⟩ := hd
    have htl : (NetworkMap.keys tl).Nodup := (List.nodup_cons.mp h).2
    have hk2 : k2 ∉ NetworkMap.keys tl := (List.nodup_cons.mp h).1
    by_cases h1 : k2 = k
    · subst h1
      simpa [NetworkMap.set, NetworkMap.keys] using h
    · have hmem := NetworkMap.mem_keys_set tl k k2 v
      have hnot : k2 ∉ NetworkMap.keys (NetworkMap.set tl k v) := by
        rw [hmem]
        push_neg
        exact ⟨h1, hk2⟩
      have hcons : NetworkMap.keys (NetworkMap.set ((k2, v2) :: tl) k v) =
          k2 :: NetworkMap.keys (NetworkMap.set tl k v) := by
        simp [NetworkMap.set, NetworkMap.keys, h1]
      rw [hcons]
      exact List.nodup_cons.mpr ⟨hnot, ih htl⟩

theorem buildMap_append_singleton (l : List Network) (x : Network) :
    buildMap (l ++ [x]) = NetworkMap.set (buildMap l) x.Id x := by
  simp [buildMap, List.foldl_append]

theorem buildMap_nodup (l : List Network) : (NetworkMap.keys (buildMap l)).Nodup := by
  induction l using List.reverseRecOn with
  | nil => simp [buildMap, NetworkMap.keys]
  | append_singleton l x ih =>
    rw [buildMap_append_singleton]
    exact NetworkMap.nodup_keys_set _ _ _ ih

theorem buildMap_mem_keys (l : List Network) (k : String) :
    k ∈ NetworkMap.keys (buildMap l) ↔ ∃ nw ∈ l, nw.Id = k := by
  induction l using List.reverseRecOn with
  | nil => simp [buildMap, NetworkMap.keys]
  | append_singleton l x ih =>
    rw [buildMap_append_singleton, NetworkMap.mem_keys_set, ih]
    constructor
    · rintro (h | ⟨nw, hnw, hid⟩)
      · exact ⟨x, by simp, h.symm⟩
      · exact ⟨nw, by simp [hnw], hid⟩
    · rintro ⟨nw, hnw, hid⟩
      rcases List.mem_append.mp hnw with h | h
      · exact Or.inr ⟨nw, h, hid⟩
      · simp at h
        subst h
        exact Or.inl hid.symm

theorem buildMap_get? (l : List Network) (k : String) :
    NetworkMap.get? (buildMap l) k = (l.filter (fun nw => nw.Id = k)).getLast? := by
  induction l using List.reverseRecOn with
  | nil => simp [buildMap, NetworkMap.get?]
  | append_singleton l x ih =>
    rw [buildMap_append_singleton, NetworkMap.get?_set, ih, List.filter_append]
    by_cases h : x.Id = k
    · simp [h, List.filter_cons]
    · simp [h, List.filter_cons]

/-! ## Lemmas: ZTClientJson, ListNetworks, GetNetwork -/

theorem ZTClientJson_state (w : World) (args : List String) (st : State) :
    (ZTClientJson w args st).2 =
      ⟨st.execs + 1, st.selects, st.trace ++ [Event.run "zerotier-cli" ("-j" :: args)]⟩ := by
  unfold ZTClientJson
  by_cases h : (w.run st.execs "zerotier-cli" ("-j" :: args)).runErr = true <;> simp [h]

theorem ListNetworks_of_parsed (e : Endpoint) (w : World) (st : State) (r : CmdResult)
    (l : List Network)
    (hrun : w.run st.execs "zerotier-cli" ["-j", "listnetworks"] = r)
    (hexit : r.exitCode = some 0)
    (hjson : w.unmarshalNetworks r.stdout = .ok l) :
    e.ListNetworks w st = (buildMap l, ⟨st.execs + 1, st.selects, st.trace ++ [pollEvent]⟩) := by
  have hne : r.runErr = false := by simp [CmdResult.runErr, hexit]
  simp [Endpoint.ListNetworks, ZTClientJson, hrun, hne, hjson, buildMap, pollEvent]

/-! ## Lemmas: net -/

theorem net.firstSep_mem (s : List Char) (c : Char) (h : net.firstSep s = some c) : c ∈ s := by
  induction s with
  | nil => simp [net.firstSep] at h
  | cons x xs ih =>
    unfold net.firstSep at h
    split at h
    · simp only [Option.some.injEq] at h
      subst h
      simp
    · exact List.mem_cons_of_mem _ (ih h)

theorem net.parseIPv4Loop_length (s : List Char) :
    ∀ (prev : Option Char) (val digLen : Nat) (fields r : List Nat),
      net.parseIPv4Loop s prev val digLen fields = some r → fields.length ≤ 3 → r.length = 4 := by
  induction s with
  | nil =>
    intro prev val digLen fields r h hlen
    unfold net.parseIPv4Loop at h
    split at h
    · simp at h
    · simp only [Option.some.injEq] at h
      subst h
      simp
      omega
  | cons c rest ih =>
    intro prev val digLen fields r h hlen
    unfold net.parseIPv4Loop at h
    split at h
    · split at h
      · simp at h
      · simp only at h
        split at h
        · simp at h
        · exact ih _ _ _ _ _ h hlen
    · split at h
      · split at h
        · simp at h
        · split at h
          · simp at h
          · rename_i h3
            apply ih _ _ _ _ _ h
            simp
            omega
      · simp at h

theorem net.To4_v4 (f : List Nat) (hf : f.length = 4) :
    net.To4 (net.Addr.As16 (net.Addr.v4 f)) = some f := by
  match f, hf with
  | [a, b, c, d], _ => simp [net.To4, net.Addr.As16, net.isZeros]

/-- A CIDR that ParseCIDR accepts and that has no colon is an IPv4 address in
dotted notation: the result is the IPv4-mapped form of its four octets. -/
theorem net.ParseCIDR_dotted (a : String) (ip : net.IP) (h : net.ParseCIDR a = .ok ip)
    (hc : ':' ∉ a.toList) : ∃ f, net.To4 ip = some f ∧ f.length = 4 := by
  unfold net.ParseCIDR at h
  simp only at h
  split at h
  · split at h
    · simp at h
    · rename_i ipAddr hpa
      split at h
      · simp at h
      · split at h
        · simp at h
        · simp only [Except.ok.injEq] at h
          subst h
          unfold net.ParseAddr at hpa
          split at hpa
          · simp at hpa
          · rename_i c hsep
            split at hpa
            · simp only [Option.map_eq_some'] at hpa
              obtain ⟨f, hf, rfl⟩ := hpa
              have hlen : f.length = 4 :=
                net.parseIPv4Loop_length _ _ _ _ _ _ hf (by simp)
              exact ⟨f, net.To4_v4 f hlen, hlen⟩
            · split at hpa
              · rename_i hcolon
                subst hcolon
                have hmem := net.firstSep_mem _ _ hsep
                exact absurd (List.takeWhile_subset _ hmem) hc
              · simp at hpa
  · simp at h

theorem mem_takeWhile_or_dropWhile (sep c : Char) (cs : List Char) (hc : c ∈ cs)
    (hne : c ≠ sep) :
    c ∈ cs.takeWhile (fun x => x != sep) ∨ c ∈ (cs.dropWhile (fun x => x != sep)).drop 1 := by
  induction cs with
  | nil => simp at hc
  | cons x xs ih =>
    by_cases hx : x = sep
    · subst hx
      rcases List.mem_cons.mp hc with h | h
      · exact absurd h hne
      · right
        simpa [List.dropWhile] using h
    · have hx1 : (x != sep) = true := by simpa using hx
      rcases List.mem_cons.mp hc with h | h
      · left
        simp [List.takeWhile, hx1, h]
      · rcases ih h with h1 | h1
        · left
          simp [List.takeWhile, hx1, h1]
        · right
          simpa [List.dropWhile, hx1] using h1

theorem net.dtoiLoop_digits (s : List Char) :
    ∀ (n m : Nat), net.dtoiLoop s n = (m, [], true) → ∀ c, c ∈ s → fmt.isDigit c = true := by
  induction s with
  | nil => intro n m _ c hc; simp at hc
  | cons x xs ih =>
    intro n m h c hc
    unfold net.dtoiLoop at h
    split at h
    · rename_i hx
      simp only at h
      split at h
      · simp at h
      · rcases List.mem_cons.mp hc with h1 | h1
        · rw [h1]; exact hx
        · exact ih _ _ h c h1
    · simp at h

theorem net.parseIPv4Loop_chars (s : List Char) :
    ∀ (prev : Option Char) (val digLen : Nat) (fields r : List Nat),
      net.parseIPv4Loop s prev val digLen fields = some r →
      ∀ c, c ∈ s → fmt.isDigit c = true ∨ c = '.' := by
  induction s with
  | nil => intro _ _ _ _ _ _ c hc; simp at hc
  | cons x xs ih =>
    intro prev val digLen fields r h c hc
    unfold net.parseIPv4Loop at h
    split at h
    · rename_i hx
      split at h
      · simp at h
      · simp only at h
        split at h
        · simp at h
        · rcases List.mem_cons.mp hc with h1 | h1
          · rw [h1]; exact Or.inl hx
          · exact ih _ _ _ _ _ h c h1
    · split at h
      · rename_i hx
        split at h
        · simp at h
        · split at h
          · simp at h
          · rcases List.mem_cons.mp hc with h1 | h1
            · rw [h1]; exact Or.inr hx
            · exact ih _ _ _ _ _ h c h1
      · simp at h

theorem net.parseIPv6_zone (s : List Char) (b : List Nat) (h : net.parseIPv6 s = some (b, [])) :
    '%' ∉ s := by
  unfold net.parseIPv6 at h
  simp only at h
  split at h
  · simp at h
  · rename_i hcond
    have hzone : (s.dropWhile (fun c => c != '%')).drop 1 = [] := by
      split at h
      · simp only [Option.some.injEq, Prod.mk.injEq] at h
        exact h.2
      · split at h
        · simp at h
        · split at h
          · simp at h
          · split at h
            · split at h
              · simp at h
              · simp only [Option.some.injEq, Prod.mk.injEq] at h
                exact h.2
            · split at h
              · simp at h
              · simp only [Option.some.injEq, Prod.mk.injEq] at h
                exact h.2
    intro hmem
    apply hcond
    simp [hzone, hmem]

theorem net.ParseCIDR_no_percent (a : String) (ip : net.IP) (h : net.ParseCIDR a = .ok ip) :
    '%' ∉ a.toList := by
  unfold net.ParseCIDR at h
  simp only at h
  split at h
  · split at h
    · simp at h
    · rename_i ipAddr hpa
      split at h
      · simp at h
      · rename_i hz
        split at h
        · simp at h
        · rename_i hmask
          intro hmem
          rcases mem_takeWhile_or_dropWhile '/' '%' a.toList hmem (by decide) with h1 | h1
          · -- the address part
            unfold net.ParseAddr at hpa
            split at hpa
            · simp at hpa
            · split at hpa
              · simp only [Option.map_eq_some'] at hpa
                obtain ⟨f, hf, _⟩ := hpa
                rcases net.parseIPv4Loop_chars _ _ _ _ _ _ hf '%' h1 with h2 | h2
                · exact absurd h2 (by decide)
                · exact absurd h2 (by decide)
              · split at hpa
                · simp only [Option.map_eq_some'] at hpa
                  obtain ⟨r, hr, rfl⟩ := hpa
                  obtain ⟨b, z⟩ := r
                  simp only [net.Addr.Zone] at hz
                  have hz1 : z = [] := by simpa using hz
                  subst hz1
                  exact net.parseIPv6_zone _ b hr h1
                · simp at hpa
          · -- the mask part
            simp only [Bool.or_eq_true, Bool.not_eq_true', not_or, Bool.not_eq_false,
              decide_eq_true_eq] at hmask
            obtain ⟨⟨hok, hrest⟩, _⟩ := hmask
            unfold net.dtoi at hok hrest
            simp only at hok hrest
            split at hok
            · simp at hok
            · rename_i hfirst
              simp only [hfirst, if_false] at hrest
              have hrest1 : (net.dtoiLoop
                  ((a.toList.dropWhile (fun c => c != '/')).drop 1) 0).2.1 = [] := by
                simpa using hrest
              have hd := net.dtoiLoop_digits _ 0
                (net.dtoiLoop ((a.toList.dropWhile (fun c => c != '/')).drop 1) 0).1
                (by
                  rw [← hrest1, ← hok])
                '%' h1
              exact absurd hd (by decide)
  · simp at h

/-! ## Lemmas: one round of WaitForIP -/

theorem GetNetwork_fst (e : Endpoint) (w : World) (id : String) (st : State) :
    (e.GetNetwork w id st).1 = e.poll w id st.execs := by
  unfold Endpoint.poll Endpoint.GetNetwork Endpoint.ListNetworks ZTClientJson
  simp only
  cases hr : (w.run st.execs "zerotier-cli" ["-j", "listnetworks"]).runErr
  · simp only [Bool.false_eq_true, if_false]
    cases hj : w.unmarshalNetworks (w.run st.execs "zerotier-cli" ["-j", "listnetworks"]).stdout <;> rfl
  · simp

theorem GetNetwork_state_of_found (e : Endpoint) (w : World) (id : String) (st : State)
    (nw : Network) (h : (e.GetNetwork w id st).1 = some nw) :
    (e.GetNetwork w id st).2 = ⟨st.execs + 1, st.selects, st.trace ++ [pollEvent]⟩ := by
  unfold Endpoint.GetNetwork Endpoint.ListNetworks at h ⊢
  simp only at h ⊢
  split at h
  · split at h
    · simp [NetworkMap.get?] at h
    · rw [ZTClientJson_state]
      rfl
  · simp [NetworkMap.get?] at h

theorem WaitForIP_round_missing (e : Endpoint) (w : World) (id : String) (st : State)
    (fuel : Nat) (h : (e.GetNetwork w id st).1 = none) :
    e.WaitForIP w id (fuel + 1) st =
      some ((none, some (fmt.Errorf ("no such network: " ++ id))), (e.GetNetwork w id st).2) := by
  rw [Endpoint.WaitForIP]
  simp only [h]

theorem WaitForIP_round_address (e : Endpoint) (w : World) (id : String) (st : State)
    (fuel : Nat) (nw : Network) (a : String) (rest : List String)
    (h : (e.GetNetwork w id st).1 = some nw) (haddr : nw.Addresses = a :: rest) :
    e.WaitForIP w id (fuel + 1) st =
      match net.ParseCIDR a with
      | .error err => some ((none, some err), ⟨st.execs + 1, st.selects, st.trace ++ [pollEvent]⟩)
      | .ok ip =>
        if (net.To4 ip).isSome then
          some ((some ip, none), ⟨st.execs + 1, st.selects, st.trace ++ [pollEvent]⟩)
        else
          some ((none, some (fmt.Errorf ("Cannot handle ip address as ipv4: " ++ a))),
            ⟨st.execs + 1, st.selects, st.trace ++ [pollEvent]⟩) := by
  rw [Endpoint.WaitForIP]
  simp only [h, haddr, GetNetwork_state_of_found e w id st nw h]

theorem WaitForIP_round_empty (e : Endpoint) (w : World) (id : String) (st : State)
    (fuel : Nat) (nw : Network)
    (h : (e.GetNetwork w id st).1 = some nw) (haddr : nw.Addresses = []) :
    e.WaitForIP w id (fuel + 1) st =
      if w.exitFirst st.selects then
        some ((none, some (fmt.Errorf "User cancelled")),
          ⟨st.execs + 1, st.selects + 1, st.trace ++ [pollEvent, Event.selectExit]⟩)
      else
        e.WaitForIP w id fuel
          ⟨st.execs + 1, st.selects + 1, st.trace ++ [pollEvent, Event.selectTimer 1]⟩ := by
  rw [Endpoint.WaitForIP]
  simp only [h, haddr, GetNetwork_state_of_found e w id st nw h, List.append_assoc,
    List.singleton_append]

/-- While the network is listed without an address and the timer wins every
select, k rounds of the loop use k rounds of fuel and leave k polls and k timer
waits in the history. -/
theorem WaitForIP_skip_rounds (e : Endpoint) (w : World) (id : String) (k : Nat) :
    ∀ (st : State) (fuel : Nat),
      (∀ i, i < k → ∃ nw0, e.poll w id (st.execs + i) = some nw0 ∧ nw0.Addresses = []) →
      (∀ i, i < k → w.exitFirst (st.selects + i) = false) →
      e.WaitForIP w id (fuel + k) st =
        e.WaitForIP w id fuel ⟨st.execs + k, st.selects + k, st.trace ++ waitTrace k⟩ := by
  induction k with
  | zero =>
    intro st fuel _ _
    simp [waitTrace]
  | succ k ih =>
    intro st fuel hempty hticks
    obtain ⟨nw0, hp, ha⟩ := hempty 0 (Nat.succ_pos k)
    have hg : (e.GetNetwork w id st).1 = some nw0 := by
      rw [GetNetwork_fst]
      simpa using hp
    have ht : w.exitFirst st.selects = false := by simpa using hticks 0 (Nat.succ_pos k)
    have hfuel : fuel + (k + 1) = (fuel + k) + 1 := by omega
    rw [hfuel, WaitForIP_round_empty e w id st (fuel + k) nw0 hg ha]
    simp only [ht, Bool.false_eq_true, if_false]
    rw [ih]
    · have h1 : st.execs + 1 + k = st.execs + (k + 1) := by omega
      have h2 : st.selects + 1 + k = st.selects + (k + 1) := by omega
      simp only [h1, h2, waitTrace, List.append_assoc, List.cons_append, List.nil_append]
    · intro i hi
      have := hempty (i + 1) (by omega)
      have h1 : st.execs + 1 + i = st.execs + (i + 1) := by omega
      simpa only [h1] using this
    · intro i hi
      have := hticks (i + 1) (by omega)
      have h1 : st.selects + 1 + i = st.selects + (i + 1) := by omega
      simpa only [h1] using this

/-! ## The claims -/

/-- C1: when the snapshot that GetNetwork returns on a poll has a non-empty
address list whose first entry is accepted by ParseCIDR and is written in IPv4
(dotted) notation, WaitForIP returns the IP of that first entry and no error in
that same round: the history grows by the one listnetworks query only (no
select, hence no tick), whatever the other entries are; the IP is an IPv4
address (To4 gives its four octets). -/
theorem WaitForIP_returns_first_ipv4 (e : Endpoint) (w : World) (networkId : String)
    (st : State) (nw : Network) (a : String) (rest : List String) (ip : net.IP) (fuel : Nat)
    (hnw : (e.GetNetwork w networkId st).1 = some nw)
    (haddr : nw.Addresses = a :: rest)
    (hcidr : net.ParseCIDR a = .ok ip)
    (hv4 : ':' ∉ a.toList) :
    e.WaitForIP w networkId (fuel + 1) st =
        some ((some ip, none), ⟨st.execs + 1, st.selects, st.trace ++ [pollEvent]⟩) ∧
      ∃ f, net.To4 ip = some f ∧ f.length = 4 := by
  obtain ⟨f, hf, hlen⟩ := net.ParseCIDR_dotted a ip hcidr hv4
  refine ⟨?_, f, hf, hlen⟩
  rw [WaitForIP_round_address e w networkId st fuel nw a rest hnw haddr, hcidr]
  simp [hf]

/-- Witness of C1: the first entry 10.1.2.3/24 (followed by an IPv6 entry) yields
10.1.2.3 on the first poll. -/
theorem WaitForIP_returns_first_ipv4_witness :
    sampleEndpoint.WaitForIP (sampleWorld 0 ["10.1.2.3/24", "fd00::1/128"] none)
        "8056c2e21c000001" 1 State.init =
        some ((some [0, 0, 0, 0, 0, 0, 0, 0, 0, 0, 255, 255, 10, 1, 2, 3], none),
          ⟨1, 0, [pollEvent]⟩) ∧
      net.To4 [0, 0, 0, 0, 0, 0, 0, 0, 0, 0, 255, 255, 10, 1, 2, 3] = some [10, 1, 2, 3] :=
  ⟨(WaitForIP_returns_first_ipv4 sampleEndpoint
      (sampleWorld 0 ["10.1.2.3/24", "fd00::1/128"] none) "8056c2e21c000001" State.init
      (sampleNetwork ["10.1.2.3/24", "fd00::1/128"]) "10.1.2.3/24" ["fd00::1/128"]
      [0, 0, 0, 0, 0, 0, 0, 0, 0, 0, 255, 255, 10, 1, 2, 3] 0
      (by rfl) (by rfl) (by rfl) (by decide)).1, by rfl⟩

/-- When the listnetworks query succeeds and the list it decodes to has no
entry with the given identifier, GetNetwork returns nil, and WaitForIP returns
in its first round no address and the error that fmt.Errorf makes of the format
"no such network: " followed by the identifier; the history grows by the one
query only, so no select is executed. For an identifier without a percent sign
the error text is that format itself. -/
theorem WaitForIP_round_not_listed (e : Endpoint) (w : World) (networkId : String)
    (st : State) (r : CmdResult) (l : List Network) (fuel : Nat)
    (hrun : w.run st.execs "zerotier-cli" ["-j", "listnetworks"] = r)
    (hexit : r.exitCode = some 0)
    (hjson : w.unmarshalNetworks r.stdout = .ok l)
    (habsent : ∀ nw, nw ∈ l → nw.Id ≠ networkId) :
    (e.GetNetwork w networkId st).1 = none ∧
      e.WaitForIP w networkId (fuel + 1) st =
        some ((none, some (fmt.Errorf ("no such network: " ++ networkId))),
          ⟨st.execs + 1, st.selects, st.trace ++ [pollEvent]⟩) ∧
      ('%' ∉ networkId.toList →
        fmt.Errorf ("no such network: " ++ networkId) = "no such network: " ++ networkId) := by
  have hl := ListNetworks_of_parsed e w st r l hrun hexit hjson
  have hnone : (e.GetNetwork w networkId st).1 = none := by
    unfold Endpoint.GetNetwork
    simp only [hl, buildMap_get?]
    rw [List.getLast?_eq_none_iff, List.filter_eq_nil_iff]
    intro nw hmem
    simpa using habsent nw hmem
  have hstate : (e.GetNetwork w networkId st).2 =
      ⟨st.execs + 1, st.selects, st.trace ++ [pollEvent]⟩ := by
    unfold Endpoint.GetNetwork
    simp only [hl]
  refine ⟨hnone, ?_, ?_⟩
  · rw [WaitForIP_round_missing e w networkId st fuel hnone, hstate]
  · intro hp
    apply fmt.Errorf_of_no_percent
    simp only [String.toList, String.data_append, List.mem_append, not_or]
    exact ⟨by decide, hp⟩

/-- C2, the failing input: the daemon lists network 8056c2e21c000001 only and the
caller waits for the identifier net%d. As the claim says, GetNetwork returns
nil and WaitForIP returns in its first round no address and an error, with the
one listnetworks query and no select in the history. But the identifier is part
of the format handed to fmt.Errorf, so the error text is "no such network:
net%!d(MISSING)" and not "no such network: net%d". -/
theorem WaitForIP_not_found_mangles_percent :
    (sampleEndpoint.GetNetwork (sampleWorld 0 ["10.1.2.3/24"] none) "net%d"
        State.init).1 = none ∧
      sampleEndpoint.WaitForIP (sampleWorld 0 ["10.1.2.3/24"] none) "net%d" 1 State.init =
        some ((none, some "no such network: net%!d(MISSING)"), ⟨1, 0, [pollEvent]⟩) ∧
      "no such network: net%!d(MISSING)" ≠ "no such network: " ++ "net%d" :=
  ⟨by rfl, by rfl, by decide⟩

/-- C3, counterexample: the first entry ::ffff:10.1.2.3/128 is written as an
IPv6 address (it has colons) and parses as a CIDR, yet WaitForIP returns its IP
with no error, because To4 accepts an IPv4-mapped address. -/
theorem WaitForIP_accepts_ipv4_mapped :
    ':' ∈ "::ffff:10.1.2.3/128".toList ∧
      net.ParseCIDR "::ffff:10.1.2.3/128" =
        .ok [0, 0, 0, 0, 0, 0, 0, 0, 0, 0, 255, 255, 10, 1, 2, 3] ∧
      sampleEndpoint.WaitForIP (sampleWorld 0 ["::ffff:10.1.2.3/128"] none)
        "8056c2e21c000001" 1 State.init =
        some ((some [0, 0, 0, 0, 0, 0, 0, 0, 0, 0, 255, 255, 10, 1, 2, 3], none),
          ⟨1, 0, [pollEvent]⟩) :=
  ⟨by decide, by rfl, by rfl⟩

/-- C3, amended: when the first address entry of the snapshot is accepted by
ParseCIDR and the IP has no 4-byte form (To4 returns nil, as for fd00::1/128),
WaitForIP returns in that round no address and the error "Cannot handle ip
address as ipv4: " followed by the entry; the history grows by the one query
only, so there is no further poll and no wait. -/
theorem WaitForIP_rejects_non_ipv4 (e : Endpoint) (w : World) (networkId : String)
    (st : State) (nw : Network) (a : String) (rest : List String) (ip : net.IP) (fuel : Nat)
    (hnw : (e.GetNetwork w networkId st).1 = some nw)
    (haddr : nw.Addresses = a :: rest)
    (hcidr : net.ParseCIDR a = .ok ip)
    (hv6 : net.To4 ip = none) :
    e.WaitForIP w networkId (fuel + 1) st =
      some ((none, some ("Cannot handle ip address as ipv4: " ++ a)),
        ⟨st.execs + 1, st.selects, st.trace ++ [pollEvent]⟩) := by
  have htext : fmt.Errorf ("Cannot handle ip address as ipv4: " ++ a) =
      "Cannot handle ip address as ipv4: " ++ a := by
    apply fmt.Errorf_of_no_percent
    simp only [String.toList, String.data_append, List.mem_append, not_or]
    exact ⟨by decide, net.ParseCIDR_no_percent a ip hcidr⟩
  rw [WaitForIP_round_address e w networkId st fuel nw a rest hnw haddr, hcidr]
  simp [hv6, htext]

/-- Witness of C3 amended: the first entry fd00::1/128. -/
theorem WaitForIP_rejects_non_ipv4_witness :
    sampleEndpoint.WaitForIP (sampleWorld 0 ["fd00::1/128", "10.1.2.3/24"] none)
        "8056c2e21c000001" 5 State.init =
      some ((none, some "Cannot handle ip address as ipv4: fd00::1/128"),
        ⟨1, 0, [pollEvent]⟩) :=
  WaitForIP_rejects_non_ipv4 sampleEndpoint
    (sampleWorld 0 ["fd00::1/128", "10.1.2.3/24"] none) "8056c2e21c000001" State.init
    (sampleNetwork ["fd00::1/128", "10.1.2.3/24"]) "fd00::1/128" ["10.1.2.3/24"]
    [253, 0, 0, 0, 0, 0, 0, 0, 0, 0, 0, 0, 0, 0, 0, 1] 4 (by rfl) (by rfl) (by rfl) (by rfl)

/-- C4: if the network is found with an empty address list on every poll up to
and including poll k, the timer wins the first k selects and the exit channel
delivers at the next select, then WaitForIP (given at least k + 1 rounds)
returns no address and the error "User cancelled". -/
theorem WaitForIP_cancelled (e : Endpoint) (w : World) (networkId : String) (k : Nat)
    (st : State) (fuel : Nat)
    (hempty : ∀ i, i ≤ k →
      ∃ nw0, e.poll w networkId (st.execs + i) = some nw0 ∧ nw0.Addresses = [])
    (hticks : ∀ i, i < k → w.exitFirst (st.selects + i) = false)
    (hcancel : w.exitFirst (st.selects + k) = true)
    (hfuel : k + 1 ≤ fuel) :
    e.WaitForIP w networkId fuel st =
      some ((none, some "User cancelled"),
        ⟨st.execs + k + 1, st.selects + k + 1,
          st.trace ++ waitTrace k ++ [pollEvent, Event.selectExit]⟩) := by
  obtain ⟨d, rfl⟩ : ∃ d, fuel = (d + 1) + k := ⟨fuel - (k + 1), by omega⟩
  rw [WaitForIP_skip_rounds e w networkId k st (d + 1)
    (fun i hi => hempty i (Nat.le_of_lt hi)) hticks]
  obtain ⟨nw0, hp, ha⟩ := hempty k (Nat.le_refl k)
  have hg : (e.GetNetwork w networkId
      ⟨st.execs + k, st.selects + k, st.trace ++ waitTrace k⟩).1 = some nw0 := by
    rw [GetNetwork_fst]
    exact hp
  rw [WaitForIP_round_empty e w networkId _ d nw0 hg ha]
  simp only [hcancel, if_true]
  rfl

/-- Witness of C4: two empty polls with a tick in between, then the signal. -/
theorem WaitForIP_cancelled_witness :
    sampleEndpoint.WaitForIP (sampleWorld 9 ["10.1.2.3/24"] (some 1)) "8056c2e21c000001" 7
        State.init =
      some ((none, some "User cancelled"),
        ⟨2, 2, [pollEvent, Event.selectTimer 1, pollEvent, Event.selectExit]⟩) :=
  WaitForIP_cancelled sampleEndpoint (sampleWorld 9 ["10.1.2.3/24"] (some 1))
    "8056c2e21c000001" 1 State.init 7
    (by
      intro i hi
      refine ⟨sampleNetwork [], ?_, rfl⟩
      interval_cases i <;> rfl)
    (by
      intro i hi
      interval_cases i
      rfl)
    (by rfl) (by decide)

/-- C5: if on the next k polls the network is found with an empty address list
and the timer wins each of the k selects (no cancellation), and on poll k + 1
the list is non-empty with a first entry that ParseCIDR accepts and that is
written in IPv4 notation, then WaitForIP (given at least k + 1 rounds) returns
that entry's IP with no error, after k + 1 listnetworks queries and exactly k
one-second timer waits. -/
theorem WaitForIP_succeeds_after_waits (e : Endpoint) (w : World) (networkId : String)
    (k : Nat) (st : State) (nw : Network) (a : String) (rest : List String) (ip : net.IP)
    (fuel : Nat)
    (hempty : ∀ i, i < k →
      ∃ nw0, e.poll w networkId (st.execs + i) = some nw0 ∧ nw0.Addresses = [])
    (hticks : ∀ i, i < k → w.exitFirst (st.selects + i) = false)
    (hnw : e.poll w networkId (st.execs + k) = some nw)
    (haddr : nw.Addresses = a :: rest)
    (hcidr : net.ParseCIDR a = .ok ip)
    (hv4 : ':' ∉ a.toList)
    (hfuel : k + 1 ≤ fuel) :
    e.WaitForIP w networkId fuel st =
      some ((some ip, none),
        ⟨st.execs + k + 1, st.selects + k, st.trace ++ waitTrace k ++ [pollEvent]⟩) := by
  obtain ⟨d, rfl⟩ : ∃ d, fuel = (d + 1) + k := ⟨fuel - (k + 1), by omega⟩
  rw [WaitForIP_skip_rounds e w networkId k st (d + 1) hempty hticks]
  have hg : (e.GetNetwork w networkId
      ⟨st.execs + k, st.selects + k, st.trace ++ waitTrace k⟩).1 = some nw := by
    rw [GetNetwork_fst]
    exact hnw
  obtain ⟨f, hf, _⟩ := net.ParseCIDR_dotted a ip hcidr hv4
  rw [WaitForIP_round_address e w networkId _ d nw a rest hg haddr, hcidr]
  simp [hf]

/-- Witness of C5 with k = 3: three empty polls, then 10.1.2.3/24 on the fourth
poll; three timer waits in the history. -/
theorem WaitForIP_succeeds_after_waits_witness :
    sampleEndpoint.WaitForIP (sampleWorld 3 ["10.1.2.3/24"] none) "8056c2e21c000001" 4
        State.init =
      some ((some [0, 0, 0, 0, 0, 0, 0, 0, 0, 0, 255, 255, 10, 1, 2, 3], none),
        ⟨4, 3, [pollEvent, Event.selectTimer 1, pollEvent, Event.selectTimer 1, pollEvent,
          Event.selectTimer 1, pollEvent]⟩) :=
  WaitForIP_succeeds_after_waits sampleEndpoint (sampleWorld 3 ["10.1.2.3/24"] none)
    "8056c2e21c000001" 3 State.init (sampleNetwork ["10.1.2.3/24"]) "10.1.2.3/24" []
    [0, 0, 0, 0, 0, 0, 0, 0, 0, 0, 255, 255, 10, 1, 2, 3] 4
    (by
      intro i hi
      refine ⟨sampleNetwork [], ?_, rfl⟩
      interval_cases i <;> rfl)
    (by
      intro i hi
      interval_cases i <;> rfl)
    (by rfl) (by rfl) (by rfl) (by decide) (by decide)

theorem authorizeRequest_header (c : Controller) (n m d : String) :
    (c.authorizeRequest n m d).Header.format =
      "map[Authorization:[Bearer " ++ c.ZerotierToken ++ "] Content-Type:[application/json]]" := by
  have h1 : ¬ ("Content-Type" = "Authorization") := by decide
  have h2 : strLess "Content-Type".toList "Authorization".toList = false := by decide
  simp only [Controller.authorizeRequest, Header.Set, Header.format, h1, h2, String.intercalate,
    String.intercalate.go, if_false, List.map, Bool.false_eq_true]
  apply String.ext
  simp [String.data_append]

theorem AuthorizeMember_of_response (c : Controller) (h : HTTPClient)
    (networkId memberAddress memberDescription : String) (resp : Response)
    (hreq : h.NewRequestErr "POST" (c.authorizeRequest networkId memberAddress memberDescription).URL
      = none)
    (hdo : h.Do (c.authorizeRequest networkId memberAddress memberDescription) = .ok resp) :
    c.AuthorizeMember h networkId memberAddress memberDescription =
      if resp.StatusCode > 299 then
        some ("Failed to update member details 'map[Authorization:[Bearer " ++ c.ZerotierToken
          ++ "] Content-Type:[application/json]]': " ++ resp.Status)
      else none := by
  have hfmt := authorizeRequest_header c networkId memberAddress memberDescription
  unfold Controller.authorizeRequest at hreq hdo hfmt
  simp only at hreq hfmt
  unfold Controller.AuthorizeMember
  simp only [hreq, hdo, hfmt]
  split
  · simp only [Option.some.injEq]
    apply String.ext
    simp [String.data_append]
  · rfl

theorem ZTClientJson_error_verbatim (w : World) (args : List String) (st : State)
    (hfail : (w.run st.execs "zerotier-cli" ("-j" :: args)).exitCode ≠ some 0)
    (hp : '%' ∉ (w.run st.execs "zerotier-cli" ("-j" :: args)).stderr.toList) :
    (ZTClientJson w args st).1 =
      (none, some (w.run st.execs "zerotier-cli" ("-j" :: args)).stderr) := by
  have hne : (w.run st.execs "zerotier-cli" ("-j" :: args)).runErr = true := by
    simpa [CmdResult.runErr] using hfail
  simp [ZTClientJson, hne, fmt.Errorf_of_no_percent _ hp]

theorem PingDaemon_eq (w : World) (st : State) :
    PingDaemon w st =
      (if (w.run st.execs "zerotier-cli" ["-j", "status"]).exitCode = some 0 then none
        else some (fmt.Errorf (w.run st.execs "zerotier-cli" ["-j", "status"]).stderr),
       ⟨st.execs + 1, st.selects, st.trace ++ [pingEvent]⟩) := by
  unfold PingDaemon ZTClientJson CmdResult.runErr pingEvent
  by_cases h : (w.run st.execs "zerotier-cli" ["-j", "status"]).exitCode = some 0 <;> simp [h]

/-! ## The claims, continued -/

/-- C6: when the listnetworks query succeeds and its output decodes to the list
l, the map that ListNetworks returns has distinct keys, its keys are exactly the
Id fields that occur in l, every key is mapped to a Network of l whose Id is
that key, and the Network stored under a key is the last entry of l with that
Id. -/
theorem ListNetworks_keyed_by_id (e : Endpoint) (w : World) (st : State) (r : CmdResult)
    (l : List Network)
    (hrun : w.run st.execs "zerotier-cli" ["-j", "listnetworks"] = r)
    (hexit : r.exitCode = some 0)
    (hjson : w.unmarshalNetworks r.stdout = .ok l) :
    (NetworkMap.keys (e.ListNetworks w st).1).Nodup ∧
      (∀ k, k ∈ NetworkMap.keys (e.ListNetworks w st).1 ↔ ∃ nw, nw ∈ l ∧ nw.Id = k) ∧
      (∀ k, k ∈ NetworkMap.keys (e.ListNetworks w st).1 →
        ∃ nw, NetworkMap.get? (e.ListNetworks w st).1 k = some nw ∧ nw.Id = k ∧ nw ∈ l) ∧
      (∀ k nw, NetworkMap.get? (e.ListNetworks w st).1 k = some nw → nw.Id = k) ∧
      (∀ k, NetworkMap.get? (e.ListNetworks w st).1 k =
        (l.filter (fun nw => nw.Id = k)).getLast?) := by
  rw [ListNetworks_of_parsed e w st r l hrun hexit hjson]
  have hkey : ∀ k nw, NetworkMap.get? (buildMap l) k = some nw → nw.Id = k ∧ nw ∈ l := by
    intro k nw hget
    rw [buildMap_get?] at hget
    have hmem := List.mem_of_getLast?_eq_some hget
    rw [List.mem_filter] at hmem
    exact ⟨by simpa using hmem.2, hmem.1⟩
  refine ⟨buildMap_nodup l, ?_, ?_, fun k nw hget => (hkey k nw hget).1, buildMap_get? l⟩
  · intro k
    rw [buildMap_mem_keys]
  · intro k hk
    rw [buildMap_mem_keys] at hk
    obtain ⟨nw0, hmem, hid⟩ := hk
    have hne : l.filter (fun nw => nw.Id = k) ≠ [] := by
      intro hnil
      rw [List.filter_eq_nil_iff] at hnil
      exact hnil nw0 hmem (by simpa using hid)
    cases hlast : (l.filter (fun nw => nw.Id = k)).getLast? with
    | none => exact absurd (List.getLast?_eq_none_iff.mp hlast) hne
    | some nw =>
      have hget : NetworkMap.get? (buildMap l) k = some nw := by rw [buildMap_get?, hlast]
      exact ⟨nw, hget, (hkey k nw hget).1, (hkey k nw hget).2⟩

/-- Witness of C6: two entries with the same identifier; the map holds one key
and the second entry. -/
theorem ListNetworks_keyed_by_id_witness :
    NetworkMap.keys (sampleEndpoint.ListNetworks
        (listWorld [sampleNetwork ["10.1.2.3/24"], sampleNetwork ["10.9.9.9/24"]])
        State.init).1 = ["8056c2e21c000001"] ∧
      NetworkMap.get? (sampleEndpoint.ListNetworks
        (listWorld [sampleNetwork ["10.1.2.3/24"], sampleNetwork ["10.9.9.9/24"]])
        State.init).1 "8056c2e21c000001" = some (sampleNetwork ["10.9.9.9/24"]) := by
  have h := ListNetworks_keyed_by_id sampleEndpoint
    (listWorld [sampleNetwork ["10.1.2.3/24"], sampleNetwork ["10.9.9.9/24"]]) State.init
    ⟨some 0, "networks", ""⟩ [sampleNetwork ["10.1.2.3/24"], sampleNetwork ["10.9.9.9/24"]]
    (by rfl) (by rfl) (by rfl)
  refine ⟨by rfl, ?_⟩
  rw [h.2.2.2.2 "8056c2e21c000001"]
  rfl

/-- C7, counterexample: the status code 101 is not a 2xx code, and AuthorizeMember
returns no error for a response with that code. -/
theorem AuthorizeMember_accepts_status_101 :
    ¬ (200 ≤ (101 : Int) ∧ (101 : Int) ≤ 299) ∧
      (NewController "s3cret").AuthorizeMember (fixedClient ⟨101, "101 Switching Protocols"⟩)
        "8056c2e21c000001" "0123456789" "laptop" = none :=
  ⟨by decide, by rfl⟩

/-- C7, amended: for every response that the controller returns, AuthorizeMember
returns no error when the status code is at most 299 (every 2xx code, and also
every code below 200), and when the status code is above 299 it returns an error
whose text ends with the Status of the response. -/
theorem AuthorizeMember_status_check (c : Controller) (h : HTTPClient)
    (networkId memberAddress memberDescription : String) (resp : Response)
    (hreq : h.NewRequestErr "POST" (c.authorizeRequest networkId memberAddress memberDescription).URL
      = none)
    (hdo : h.Do (c.authorizeRequest networkId memberAddress memberDescription) = .ok resp) :
    (resp.StatusCode ≤ 299 →
        c.AuthorizeMember h networkId memberAddress memberDescription = none) ∧
      (299 < resp.StatusCode →
        c.AuthorizeMember h networkId memberAddress memberDescription =
          some ("Failed to update member details 'map[Authorization:[Bearer "
            ++ c.ZerotierToken ++ "] Content-Type:[application/json]]': " ++ resp.Status)) := by
  rw [AuthorizeMember_of_response c h networkId memberAddress memberDescription resp hreq hdo]
  constructor
  · intro hle
    have : ¬ resp.StatusCode > 299 := by omega
    simp [this]
  · intro hgt
    have : resp.StatusCode > 299 := hgt
    simp [this]

/-- Witness of C7 amended: 200 succeeds, 403 fails with an error that reports
403 Forbidden. -/
theorem AuthorizeMember_status_check_witness :
    (NewController "s3cret").AuthorizeMember (fixedClient ⟨200, "200 OK"⟩)
        "8056c2e21c000001" "0123456789" "laptop" = none ∧
      (NewController "s3cret").AuthorizeMember (fixedClient ⟨403, "403 Forbidden"⟩)
        "8056c2e21c000001" "0123456789" "laptop" =
        some "Failed to update member details 'map[Authorization:[Bearer s3cret] Content-Type:[application/json]]': 403 Forbidden" :=
  ⟨(AuthorizeMember_status_check (NewController "s3cret") (fixedClient ⟨200, "200 OK"⟩)
      "8056c2e21c000001" "0123456789" "laptop" ⟨200, "200 OK"⟩ (by rfl) (by rfl)).1 (by decide),
   (AuthorizeMember_status_check (NewController "s3cret") (fixedClient ⟨403, "403 Forbidden"⟩)
      "8056c2e21c000001" "0123456789" "laptop" ⟨403, "403 Forbidden"⟩ (by rfl) (by rfl)).2
      (by decide)⟩

/-- C8, counterexample: with the token s3cret and a 403 response, the error text
of AuthorizeMember contains the Authorization header value Bearer s3cret. -/
theorem AuthorizeMember_leaks_token :
    (NewController "s3cret").AuthorizeMember (fixedClient ⟨403, "403 Forbidden"⟩)
        "8056c2e21c000001" "0123456789" "laptop" =
        some "Failed to update member details 'map[Authorization:[Bearer s3cret] Content-Type:[application/json]]': 403 Forbidden" ∧
      "Bearer s3cret".toList <:+:
        "Failed to update member details 'map[Authorization:[Bearer s3cret] Content-Type:[application/json]]': 403 Forbidden".toList :=
  ⟨by rfl, "Failed to update member details 'map[Authorization:[".toList,
    "] Content-Type:[application/json]]': 403 Forbidden".toList, by rfl⟩

/-- C8, amended: for every token, network id, member address and description, and
every response with a status code above 299, the error text that AuthorizeMember
returns contains the Authorization header value, Bearer followed by the token,
verbatim. -/
theorem AuthorizeMember_error_contains_token (c : Controller) (h : HTTPClient)
    (networkId memberAddress memberDescription : String) (resp : Response)
    (hreq : h.NewRequestErr "POST" (c.authorizeRequest networkId memberAddress memberDescription).URL
      = none)
    (hdo : h.Do (c.authorizeRequest networkId memberAddress memberDescription) = .ok resp)
    (hstatus : 299 < resp.StatusCode) :
    ∃ msg, c.AuthorizeMember h networkId memberAddress memberDescription = some msg ∧
      ("Bearer " ++ c.ZerotierToken).toList <:+: msg.toList := by
  rw [AuthorizeMember_of_response c h networkId memberAddress memberDescription resp hreq hdo]
  have : resp.StatusCode > 299 := hstatus
  rw [if_pos this]
  refine ⟨_, rfl, ?_⟩
  refine ⟨"Failed to update member details 'map[Authorization:[".toList,
    ("] Content-Type:[application/json]]': " ++ resp.Status).toList, ?_⟩
  simp [String.toList, String.data_append]

/-- Witness of C8 amended: the token s3cret and a 500 response. -/
theorem AuthorizeMember_error_contains_token_witness :
    ∃ msg, (NewController "s3cret").AuthorizeMember
        (fixedClient ⟨500, "500 Internal Server Error"⟩)
        "8056c2e21c000001" "0123456789" "laptop" = some msg ∧
      ("Bearer " ++ "s3cret").toList <:+: msg.toList :=
  AuthorizeMember_error_contains_token (NewController "s3cret")
    (fixedClient ⟨500, "500 Internal Server Error"⟩) "8056c2e21c000001" "0123456789" "laptop"
    ⟨500, "500 Internal Server Error"⟩ (by rfl) (by rfl) (by decide)

/-- C9, counterexample: the first ping fails and the daemon executable cannot be
started; StartDaemon returns the error of the start at once, without the
one-second wait and without a second ping, and the error is not "Cannot connect
to local zt daemon". -/
theorem StartDaemon_start_failure :
    StartDaemon (daemonWorld (fun _ => false)
        (some "fork/exec /var/lib/zerotier-one/zerotier-one: no such file or directory")
        "connection refused") State.init =
      (some "fork/exec /var/lib/zerotier-one/zerotier-one: no such file or directory",
        ⟨2, 0, [pingEvent, Event.start "/var/lib/zerotier-one/zerotier-one"]⟩) :=
  by rfl

/-- C9, amended: if the first ping succeeds, StartDaemon returns success after
that single ping, without starting the executable, waiting or pinging again. If
the first ping fails, it starts the executable; if the start itself fails, that
error is returned at once, with no wait and no second ping; if the start
succeeds, it waits one second and pings exactly once more, and returns success
if that ping succeeds and the error "Cannot connect to local zt daemon" if it
fails. -/
theorem StartDaemon_behaviour (w : World) (st : State) :
    ((w.run st.execs "zerotier-cli" ["-j", "status"]).exitCode = some 0 →
        StartDaemon w st = (none, ⟨st.execs + 1, st.selects, st.trace ++ [pingEvent]⟩)) ∧
      (∀ err, (w.run st.execs "zerotier-cli" ["-j", "status"]).exitCode ≠ some 0 →
        w.start (st.execs + 1) "/var/lib/zerotier-one/zerotier-one" = some err →
        StartDaemon w st =
          (some err, ⟨st.execs + 2, st.selects,
            st.trace ++ [pingEvent, Event.start "/var/lib/zerotier-one/zerotier-one"]⟩)) ∧
      ((w.run st.execs "zerotier-cli" ["-j", "status"]).exitCode ≠ some 0 →
        w.start (st.execs + 1) "/var/lib/zerotier-one/zerotier-one" = none →
        (w.run (st.execs + 2) "zerotier-cli" ["-j", "status"]).exitCode = some 0 →
        StartDaemon w st =
          (none, ⟨st.execs + 3, st.selects,
            st.trace ++ [pingEvent, Event.start "/var/lib/zerotier-one/zerotier-one",
              Event.sleep 1, pingEvent]⟩)) ∧
      ((w.run st.execs "zerotier-cli" ["-j", "status"]).exitCode ≠ some 0 →
        w.start (st.execs + 1) "/var/lib/zerotier-one/zerotier-one" = none →
        (w.run (st.execs + 2) "zerotier-cli" ["-j", "status"]).exitCode ≠ some 0 →
        StartDaemon w st =
          (some "Cannot connect to local zt daemon", ⟨st.execs + 3, st.selects,
            st.trace ++ [pingEvent, Event.start "/var/lib/zerotier-one/zerotier-one",
              Event.sleep 1, pingEvent]⟩)) := by
  have herr : fmt.Errorf "Cannot connect to local zt daemon" =
      "Cannot connect to local zt daemon" := by decide
  refine ⟨?_, ?_, ?_, ?_⟩
  · intro h1
    unfold StartDaemon
    simp [PingDaemon_eq, h1]
  · intro err h1 h2
    unfold StartDaemon
    simp [PingDaemon_eq, h1, h2]
  · intro h1 h2 h3
    unfold StartDaemon
    simp [PingDaemon_eq, h1, h2, h3]
  · intro h1 h2 h3
    unfold StartDaemon
    simp [PingDaemon_eq, h1, h2, h3, herr]

/-- Witness of C9 amended: a daemon that is up; one whose executable is missing;
one that comes up after the start; one that stays down after the start. -/
theorem StartDaemon_behaviour_witness :
    StartDaemon (daemonWorld (fun _ => true) none "") State.init = (none, ⟨1, 0, [pingEvent]⟩) ∧
      StartDaemon (daemonWorld (fun _ => false) (some "no such file or directory") "down")
          State.init =
        (some "no such file or directory",
          ⟨2, 0, [pingEvent, Event.start "/var/lib/zerotier-one/zerotier-one"]⟩) ∧
      StartDaemon (daemonWorld (fun n => decide (2 ≤ n)) none "down") State.init =
        (none, ⟨3, 0, [pingEvent, Event.start "/var/lib/zerotier-one/zerotier-one",
          Event.sleep 1, pingEvent]⟩) ∧
      StartDaemon (daemonWorld (fun _ => false) none "down") State.init =
        (some "Cannot connect to local zt daemon",
          ⟨3, 0, [pingEvent, Event.start "/var/lib/zerotier-one/zerotier-one",
            Event.sleep 1, pingEvent]⟩) :=
  ⟨(StartDaemon_behaviour (daemonWorld (fun _ => true) none "") State.init).1 (by rfl),
   (StartDaemon_behaviour (daemonWorld (fun _ => false) (some "no such file or directory")
      "down") State.init).2.1 "no such file or directory" (by decide) (by rfl),
   (StartDaemon_behaviour (daemonWorld (fun n => decide (2 ≤ n)) none "down")
      State.init).2.2.1 (by decide) (by rfl) (by rfl),
   (StartDaemon_behaviour (daemonWorld (fun _ => false) none "down")
      State.init).2.2.2 (by decide) (by rfl) (by decide)⟩

/-- C10, the failing input: zerotier-cli exits with status 1 and the standard
error "disk 100% full"; the error that ZTClientJson returns has the text
"disk 100%!f(MISSING)ull", which is not the captured standard error. -/
theorem ZTClientJson_mangles_percent :
    ZTClientJson (daemonWorld (fun _ => false) none "disk 100% full") ["status"] State.init =
        ((none, some "disk 100%!f(MISSING)ull"), ⟨1, 0, [pingEvent]⟩) ∧
      "disk 100%!f(MISSING)ull" ≠ "disk 100% full" :=
  ⟨by rfl, by decide⟩

end Zerotier
